import Mathlib

/-!
Verification development for the ZyperPanel daemon (src/server.js).

The daemon keeps a persisted map `config.servers` of instance
configurations and an in-memory map `activeServers` of running
processes, exposes HTTP handlers for start/stop/restart/command/file
operations, and fans console output out to socket.io subscribers.
The definitions below are shallow embeddings of those handlers; each
definition's doc comment cites the server.js lines it embeds.
Time (Date.now) is modelled as a natural number of milliseconds.
-/

namespace Daemon

/-- One console log record `\x7b time: Date.now(), data \x7d` pushed by the
pty onData callbacks (server.js:799, server.js:1070). -/
structure LogEntry where
  time : Nat
  data : String
deriving DecidableEq

/-- The onData callback registered by the start handler
(server.js:798-801): push the new record, then if the buffer length
exceeds 1000 shift off the oldest (front) record. -/
def startOnData (logs : List LogEntry) (now : Nat) (chunk : String) : List LogEntry :=
  let logs1 := logs ++ [{ time := now, data := chunk }]
  if 1000 < logs1.length then logs1.drop 1 else logs1

/-- The onData callback registered by the restart handler
(server.js:1069-1075): push the new record; no length check and no
shift is performed on this path. -/
def restartOnData (logs : List LogEntry) (now : Nat) (chunk : String) : List LogEntry :=
  logs ++ [{ time := now, data := chunk }]

/-- Deliver `n` output chunks (at times 0,1,...) to a buffer that starts
empty, through the given onData callback. -/
def feedChunks (f : List LogEntry → Nat → String → List LogEntry) : Nat → List LogEntry
  | 0 => []
  | n + 1 => f (feedChunks f n) n "x"

/-- Outcome of the HTTP auth middleware: pass the request on, or answer
401 Unauthorized. -/
inductive AuthDecision where
  | next
  | unauthorized
deriving DecidableEq

/-- The auth middleware (server.js:67-78). `config.nodeKey` is modelled
as `Option String`: `none` for an absent key, `some ""` for an empty
one; the JavaScript test `!config.nodeKey` is true exactly on those two
(falsy) cases and short-circuits to `next()`. Otherwise the request
passes iff the Authorization header is `Bearer <key>` or the x-api-key
header equals the key. -/
def authMiddleware (nodeKey authHeader apiKey : Option String) : AuthDecision :=
  match nodeKey with
  | none => .next
  | some k =>
    if k = "" then .next
    else if authHeader = some ("Bearer " ++ k) ∨ apiKey = some k then .next
    else .unauthorized

/-- JAVA_VERSION_MAP (server.js:108-121) in the order Object.entries
yields it: every key contains a dot, so none is treated as an array
index and insertion order is preserved; the numeric literals 1.21,
1.19, ..., 1.12 coerce to the key strings "1.21", "1.19", ..., "1.12".
Versions are modelled as lists of characters. -/
def JAVA_VERSION_MAP : List (List Char × Nat) :=
  [("1.21".toList, 21), ("1.20.5".toList, 21), ("1.20.4".toList, 17),
   ("1.20".toList, 17), ("1.19".toList, 17), ("1.18".toList, 17),
   ("1.17".toList, 17), ("1.16".toList, 11), ("1.15".toList, 11),
   ("1.14".toList, 11), ("1.13".toList, 11), ("1.12".toList, 8)]

/-- First table entry whose key is a leading piece of `v` — the
`for ... of Object.entries` loop with `mcVersion.startsWith(version)`
in getRequiredJavaVersion (server.js:124-128). -/
def firstMatch : List (List Char × Nat) → List Char → Option (List Char × Nat)
  | [], _ => none
  | e :: rest, v => if e.1 <+: v then some e else firstMatch rest v

/-- getRequiredJavaVersion (server.js:123-130): scan JAVA_VERSION_MAP in
order, return the first entry whose key the version starts with, else
default to 17. -/
def getRequiredJavaVersion (mcVersion : List Char) : Nat :=
  match firstMatch JAVA_VERSION_MAP mcVersion with
  | some e => e.2
  | none => 17

/-- Ordering condition on a matching table: no key is a strict leading
piece of a key listed after it. Under this condition a first-match scan
returns a longest-match entry. -/
def TableOrderOk (table : List (List Char × Nat)) : Prop :=
  table.Pairwise (fun a b => a.1 = b.1 ∨ ¬ a.1 <+: b.1)

/-- POSIX path normalization over segment lists, as performed by
path.join / path.resolve on an absolute base: starting from the
(already normalized, absolute) accumulator, a ".." segment pops the
last accumulated segment (above the root it is dropped), "." and empty
segments are skipped, and any other segment is appended. -/
def normSegs : List String → List String → List String
  | acc, [] => acc
  | acc, s :: rest =>
    if s = ".." then normSegs acc.dropLast rest
    else if s = "." ∨ s = "" then normSegs acc rest
    else normSegs (acc ++ [s]) rest

/-- path.join of a request path onto an absolute, normalized instance
directory. -/
def joinPath (dir p : List String) : List String := normSegs dir p

/-- Render an absolute segment list back to the string path.resolve
produces ("/" ++ segments joined by "/"). -/
def renderPath (segs : List String) : String :=
  segs.foldl (fun acc s => acc ++ "/" ++ s) ""

/-- Outcome of the files/write handler. -/
inductive WriteResult where
  | notFound
  | wrote (target : List String)
deriving DecidableEq

/-- The files/write handler (server.js:1402-1424): 404 when the instance
is unknown; otherwise path.join the supplied filePath onto the instance
directory, create the parent directory, and write the file at the
joined path. No containment check of any kind is performed. -/
def writeHandler (server : Option (List String)) (filePath : List String) : WriteResult :=
  match server with
  | none => .notFound
  | some dir => .wrote (joinPath dir filePath)

/-- Outcome of the files/delete handler (the filesystem interaction
after a passed check is elided; `deleted` carries the path that would
be removed). -/
inductive DeleteResult where
  | notFound
  | accessDenied
  | deleted (target : List String)
deriving DecidableEq

/-- The files/delete handler (server.js:1428-1460): 404 when the
instance is unknown; otherwise path.join the filePath onto the instance
directory, and reject with 403 Access denied unless the resolved full
path startsWith the resolved instance directory (the check at
server.js:1444-1449, which runs before any filesystem access). -/
def deleteHandler (server : Option (List String)) (filePath : List String) : DeleteResult :=
  match server with
  | none => .notFound
  | some dir =>
    let fullPath := joinPath dir filePath
    if (renderPath dir).isPrefixOf (renderPath fullPath) then .deleted fullPath
    else .accessDenied

/-- The in-memory record stored in activeServers for a running instance
(server.js:791-796 on the start path, server.js:1062-1067 on the
restart path): pid, start timestamp (Date.now at spawn) and the console
log buffer. `exitRegistered` records whether the creating handler
registered the onExit callback on the pty process: the start handler
does (server.js:811-815), the restart handler registers only onData and
no onExit callback at all (server.js:1054-1075). -/
structure ServerProcess where
  pid : Nat
  startTime : Nat
  logs : List LogEntry
  exitRegistered : Bool
deriving DecidableEq

/-- The slice of a persisted instance configuration
(config.servers[id]) that the modelled handlers read or write:
`lastStarted` is `null` until a start records an ISO timestamp,
modelled as the millisecond clock value. -/
structure InstanceConfig where
  name : String
  lastStarted : Option Nat
deriving DecidableEq

/-- Socket.io events emitted to the room `server-<id>` by the modelled
handlers. -/
inductive Event where
  | consoleOutput (serverId : String) (message : String) (timestamp : Nat)
  | serverStopped (serverId : String) (exitCode : Int) (signal : Option Nat)
deriving DecidableEq

/-- The daemon's mutable state: the persisted config.servers map, the
in-memory activeServers map, the number of saveConfig() calls performed
(each one a synchronous write of the whole config file), the events
emitted to socket.io rooms, and a source of fresh pids for pty.spawn. -/
structure DaemonState where
  servers : String → Option InstanceConfig
  active : String → Option ServerProcess
  savedCount : Nat
  events : List Event
  nextPid : Nat

/-- Point update of a string-keyed map. -/
def mapSet (m : String → Option α) (k : String) (v : α) : String → Option α :=
  fun q => if q = k then some v else m q

/-- Point removal from a string-keyed map. -/
def mapDel (m : String → Option α) (k : String) : String → Option α :=
  fun q => if q = k then none else m q

/-- Outcome of the start handler. -/
inductive StartResult where
  | notFound
  | alreadyRunning
  | success (pid : Nat)
deriving DecidableEq

/-- The start handler (server.js:768-827): 404 "Server not found" when
config.servers has no entry; 400 "Server already running" when
activeServers has one; otherwise pty.spawn the start script (fresh
pid), register onData and onExit callbacks, put the new process record
into activeServers, set the instance's lastStarted to the current time
and saveConfig(). `now` is Date.now() at the request. -/
def startHandler (st : DaemonState) (serverId : String) (now : Nat) :
    StartResult × DaemonState :=
  match st.servers serverId with
  | none => (.notFound, st)
  | some server =>
    match st.active serverId with
    | some _ => (.alreadyRunning, st)
    | none =>
      let proc : ServerProcess :=
        { pid := st.nextPid, startTime := now, logs := [], exitRegistered := true }
      (.success st.nextPid,
       { st with
           active := mapSet st.active serverId proc
           servers := mapSet st.servers serverId { server with lastStarted := some now }
           savedCount := st.savedCount + 1
           nextPid := st.nextPid + 1 })

/-- Outcome of the restart handler. -/
inductive RestartResult where
  | notFound
  | success (pid : Nat)
deriving DecidableEq

/-- Observable outcome of one restart request: HTTP result, final
state, the pids signalled SIGTERM through tree-kill, and the setTimeout
delays awaited (milliseconds). -/
structure RestartOutcome where
  result : RestartResult
  state : DaemonState
  signalsSent : List Nat
  delaysMs : List Nat

/-- The restart handler (server.js:1031-1083), in source order: if
activeServers has a process, send SIGTERM to its pid and, in the
awaited kill callback (which fires after `killDur` ms), delete the
registration, then await a 2000 ms setTimeout; then look up
config.servers (404 when absent); otherwise pty.spawn a new process at
the then-current time, registering only an onData callback, and put it
into activeServers. The handler never touches lastStarted and never
calls saveConfig. -/
def restartHandler (st : DaemonState) (serverId : String) (now killDur : Nat) :
    RestartOutcome :=
  let phase1 : DaemonState × Nat × List Nat × List Nat :=
    match st.active serverId with
    | some p =>
      ({ st with active := mapDel st.active serverId },
       now + killDur + 2000, [p.pid], [2000])
    | none => (st, now, [], [])
  match phase1 with
  | (st1, t1, sigs, delays) =>
    match st1.servers serverId with
    | none => { result := .notFound, state := st1, signalsSent := sigs, delaysMs := delays }
    | some _ =>
      let proc : ServerProcess :=
        { pid := st1.nextPid, startTime := t1, logs := [], exitRegistered := false }
      { result := .success st1.nextPid
        state := { st1 with
                     active := mapSet st1.active serverId proc
                     nextPid := st1.nextPid + 1 }
        signalsSent := sigs
        delaysMs := delays }

/-- Process-exit notification for a process spawned for `serverId`:
node-pty fires the onExit callbacks registered on that process. When
the start handler created it, the registered callback
(server.js:811-815) deletes the instance from activeServers and emits
exactly one server_stopped event with the exit code and signal. When
the restart handler created it, no callback was registered, so nothing
at all runs. -/
def processExit (st : DaemonState) (serverId : String) (proc : ServerProcess)
    (exitCode : Int) (signal : Option Nat) : DaemonState :=
  if proc.exitRegistered then
    { st with
        active := mapDel st.active serverId
        events := st.events ++ [.serverStopped serverId exitCode signal] }
  else st

/-- Whether a status query reports the instance as running:
activeServers.has(id), as used by the instance listing and detail
endpoints (server.js:171, server.js:189-195). -/
def statusRunning (st : DaemonState) (serverId : String) : Bool :=
  (st.active serverId).isSome

/-- Messages emitted to a single socket by the join-server handler:
replayed console-output records (type "log") and synthetic system
messages (type "system"). -/
inductive SocketMsg where
  | log (message : String) (timestamp : Nat)
  | system (message : String)
deriving DecidableEq

/-- Synthetic system message sent to a subscriber of a running
instance (server.js:1617-1620). -/
def liveMsg : String := "✅ Connected to server console (Real-time)\n"

/-- Synthetic system message sent to a subscriber of a non-running
instance (server.js:1621-1626). -/
def offlineMsg : String := "⚠️ Server is not running. Start it to see live logs.\n"

/-- The socket.io join-server handler (server.js:1602-1627): after
joining the room, if activeServers has a process, emit each record of
logs.slice(-50) in order as a console-output log message followed by
one system message announcing the live console; otherwise emit only a
system message announcing that the server is offline. -/
def joinServer (procOpt : Option ServerProcess) : List SocketMsg :=
  match procOpt with
  | some proc =>
    (proc.logs.drop (proc.logs.length - 50)).map
      (fun l => SocketMsg.log l.data l.time) ++ [SocketMsg.system liveMsg]
  | none => [SocketMsg.system offlineMsg]

/-- State of the concurrency model for one fixed instance id: the
activeServers registration for that id (by pid), the pids of processes
spawned for the id and not yet exited, a fresh-pid source, and the HTTP
responses sent so far to start requests. -/
structure RaceState where
  registered : Option Nat
  live : List Nat
  nextPid : Nat
  startResponses : List StartResult
deriving DecidableEq

/-- The whole start handler for the fixed id as one atomic step: the
handler body (server.js:768-827) contains no await between its
already-running check and activeServers.set, so on Node's single
thread it cannot interleave with other handler code. `configured`
abstracts the config.servers lookup. -/
def startAtomic (configured : Bool) (s : RaceState) : RaceState :=
  if ¬ configured then
    { s with startResponses := s.startResponses ++ [.notFound] }
  else
    match s.registered with
    | some _ => { s with startResponses := s.startResponses ++ [.alreadyRunning] }
    | none =>
      { registered := some s.nextPid
        live := s.live ++ [s.nextPid]
        nextPid := s.nextPid + 1
        startResponses := s.startResponses ++ [.success s.nextPid] }

/-- First atomic phase of the restart handler (server.js:1035-1045):
read the registration; when a process is present, tree-kill it and, in
the kill callback, delete the registration — then the handler suspends,
first on the awaited kill promise and then on the 2000 ms settle
setTimeout, so other handlers run before its next phase. The SIGTERM is
taken to terminate the old process (it is removed from `live`); the
returned flag records whether a process was found. -/
def restartPhaseA (s : RaceState) : RaceState × Bool :=
  match s.registered with
  | some p => ({ s with registered := none, live := s.live.erase p }, true)
  | none => (s, false)

/-- Second atomic phase of the restart handler, resumed after the
settle delay (server.js:1047-1079): look up the config and, when
present, pty.spawn a new process and activeServers.set it — with no
re-check that another handler has registered a process for the id in
the meantime; Map.set silently overwrites any such registration. -/
def restartPhaseB (configured : Bool) (s : RaceState) : RaceState :=
  if ¬ configured then s
  else
    { s with
        registered := some s.nextPid
        live := s.live ++ [s.nextPid]
        nextPid := s.nextPid + 1 }

/-- Fixture: configuration of instance "a" before any start. -/
def cfgAlpha : InstanceConfig := { name := "alpha", lastStarted := none }

/-- Fixture: daemon state with instance "a" configured and stopped. -/
def stOneConfigured : DaemonState :=
  { servers := mapSet (fun _ => none) "a" cfgAlpha
    active := fun _ => none
    savedCount := 0
    events := []
    nextPid := 3 }

/-- Fixture: a process record as the start handler creates it. -/
def procAlpha : ServerProcess :=
  { pid := 7, startTime := 100, logs := [], exitRegistered := true }

/-- Fixture: daemon state with instance "a" configured and running. -/
def stOneRunning : DaemonState :=
  { stOneConfigured with active := mapSet (fun _ => none) "a" procAlpha }

/-- Fixture: the process record the restart handler creates when run on
`stOneConfigured` at time 100 with kill latency 5. -/
def procRestarted : ServerProcess :=
  { pid := 3, startTime := 100, logs := [], exitRegistered := false }

/-- Fixture: a running process with three buffered log records. -/
def procLogs3 : ServerProcess :=
  { pid := 9, startTime := 50
    logs := [{ time := 1, data := "one" }, { time := 2, data := "two" },
             { time := 3, data := "three" }]
    exitRegistered := true }

theorem feed_restart_length (n : Nat) :
    (feedChunks restartOnData n).length = n := by
  induction n with
  | zero => rfl
  | succ n ih => simp [feedChunks, restartOnData, ih]

theorem feed_start_length (n : Nat) :
    (feedChunks startOnData n).length = min n 1000 := by
  induction n with
  | zero => rfl
  | succ n ih =>
    simp only [feedChunks, startOnData]
    split
    · simp_all; omega
    · simp_all; omega

theorem firstMatch_longest (table : List (List Char × Nat)) (v : List Char)
    (hord : TableOrderOk table) :
    (∀ e, firstMatch table v = some e →
        e ∈ table ∧ e.1 <+: v ∧
        ∀ f ∈ table, f.1 <+: v → f.1.length ≤ e.1.length) ∧
    (firstMatch table v = none → ∀ f ∈ table, ¬ f.1 <+: v) := by
  induction table with
  | nil =>
    refine ⟨fun e h => ?_, fun _ f hf => ?_⟩
    · cases h
    · cases hf
  | cons a rest ih =>
    obtain ⟨hpair, hrest⟩ := List.pairwise_cons.mp hord
    have ihr := ih hrest
    constructor
    · intro e he
      by_cases hav : a.1 <+: v
      · rw [firstMatch, if_pos hav] at he
        cases he
        refine ⟨List.mem_cons_self a rest, hav, ?_⟩
        intro f hf hfv
        rcases List.mem_cons.mp hf with rfl | hfr
        · exact le_refl _
        · rcases List.prefix_or_prefix_of_prefix hfv hav with hfa | haf
          · exact hfa.length_le
          · rcases hpair f hfr with heq | hnp
            · rw [heq]
            · exact absurd haf hnp
      · rw [firstMatch, if_neg hav] at he
        obtain ⟨hmem, hpre, hmax⟩ := ihr.1 e he
        refine ⟨List.mem_cons_of_mem a hmem, hpre, ?_⟩
        intro f hf hfv
        rcases List.mem_cons.mp hf with rfl | hfr
        · exact absurd hfv hav
        · exact hmax f hfr hfv
    · intro hnone f hf hfv
      by_cases hav : a.1 <+: v
      · rw [firstMatch, if_pos hav] at hnone; cases hnone
      · rw [firstMatch, if_neg hav] at hnone
        rcases List.mem_cons.mp hf with rfl | hfr
        · exact hav hfv
        · exact ihr.2 hnone f hfr hfv

/-- Claim C1: the code does not keep the at-most-one-process invariant
under a Restart overlapping a Start. Starting from instance "a"
configured and running (pid 1), the schedule "restart phase A; full
start handler; restart phase B" — a legal interleaving, since the
restart handler suspends on its awaited kill promise and its 2000 ms
settle timeout between the two phases — ends with two live processes
(pids 2 and 3) for the one identifier, the Start request answered with
success rather than AlreadyRunning, and the restart's registration
silently overwriting the start's. -/
theorem race_two_live_processes :
    (restartPhaseA { registered := some 1, live := [1], nextPid := 2,
                     startResponses := [] }).2 = true ∧
    restartPhaseB true
        (startAtomic true
          (restartPhaseA { registered := some 1, live := [1], nextPid := 2,
                           startResponses := [] }).1)
      = { registered := some 3, live := [2, 3], nextPid := 4,
          startResponses := [StartResult.success 2] } := by
  decide

/-- Claim C2: the 1000-entry bound on the console log buffer holds on
the start path but not on the restart path: the onData callback the
restart handler registers never evicts, so after 1001 chunks the buffer
of a restart-created process holds 1001 records, while the start-created
buffer holds exactly 1000. -/
theorem restart_buffer_exceeds_capacity :
    1000 < (feedChunks restartOnData 1001).length ∧
    (feedChunks restartOnData 1001).length = 1001 ∧
    (feedChunks startOnData 1001).length = 1000 := by
  have h := feed_restart_length 1001
  have h2 := feed_start_length 1001
  refine ⟨by omega, h, by omega⟩

/-- Claim C3: the restart handler registers no onExit callback, so the
exit of a restart-created process is never observed: running the
restart handler on a configured stopped instance "a" registers exactly
`procRestarted`, and when that process exits with code 1 the state is
entirely unchanged — no terminal event is published and a status query
still reports running — whereas the exit of a start-created process
(procAlpha, in stOneRunning) removes the entry, publishes exactly one
server_stopped event and makes status report not running. -/
theorem restart_exit_unobserved :
    (restartHandler stOneConfigured "a" 100 5).state.active "a" = some procRestarted ∧
    processExit (restartHandler stOneConfigured "a" 100 5).state "a" procRestarted 1 none
      = (restartHandler stOneConfigured "a" 100 5).state ∧
    (processExit (restartHandler stOneConfigured "a" 100 5).state "a" procRestarted 1 none).events
      = [] ∧
    statusRunning
      (processExit (restartHandler stOneConfigured "a" 100 5).state "a" procRestarted 1 none)
      "a" = true ∧
    (processExit stOneRunning "a" procAlpha 1 none).events
      = [Event.serverStopped "a" 1 none] ∧
    statusRunning (processExit stOneRunning "a" procAlpha 1 none) "a" = false := by
  refine ⟨by decide, rfl, by decide, by decide, by decide, by decide⟩

/-- Claim C4: on any state satisfying the running-set-subset-of-
configured invariant, the start handler answers AlreadyRunning and
returns the state (hence the registered process handle and the running
set) unchanged whenever a process is registered for the id, answers
NotFound whenever the id has no configuration, and otherwise registers
a freshly spawned process for the id. -/
theorem start_guards (st : DaemonState) (id : String) (now : Nat)
    (hinv : ∀ p, st.active id = some p → ∃ c, st.servers id = some c) :
    (∀ p, st.active id = some p →
        startHandler st id now = (StartResult.alreadyRunning, st)) ∧
    (st.servers id = none → startHandler st id now = (StartResult.notFound, st)) ∧
    (∀ c, st.servers id = some c → st.active id = none →
        (startHandler st id now).1 = StartResult.success st.nextPid ∧
        (startHandler st id now).2.active id =
          some { pid := st.nextPid, startTime := now, logs := [],
                 exitRegistered := true }) := by
  refine ⟨?_, ?_, ?_⟩
  · intro p hp
    obtain ⟨c, hc⟩ := hinv p hp
    simp [startHandler, hc, hp]
  · intro h
    simp [startHandler, h]
  · intro c hc hn
    simp [startHandler, hc, hn, mapSet]

/-- Witness for start_guards: instance "a" configured and running in
stOneRunning; a start request answers AlreadyRunning and leaves the
state unchanged. -/
theorem start_guards_witness :
    startHandler stOneRunning "a" 300 = (StartResult.alreadyRunning, stOneRunning) :=
  (start_guards stOneRunning "a" 300 (fun _ _ => ⟨cfgAlpha, by decide⟩)).1
    procAlpha (by decide)

/-- Claim C5: on a running instance the restart handler sends exactly
one SIGTERM (to the registered pid), waits the one 2000 ms settle
delay, and registers a new process whose start timestamp
now + killDur + 2000 is strictly later than the replaced process's
start timestamp (which is at most `now`); on a non-running instance it
sends no signal, performs no delay, and proceeds directly to the spawn,
which succeeds whenever the instance is configured. -/
theorem restart_sequence (st : DaemonState) (id : String) (now killDur : Nat) :
    (∀ p c, st.active id = some p → st.servers id = some c → p.startTime ≤ now →
        (restartHandler st id now killDur).signalsSent = [p.pid] ∧
        (restartHandler st id now killDur).delaysMs = [2000] ∧
        (restartHandler st id now killDur).state.active id =
          some { pid := st.nextPid, startTime := now + killDur + 2000, logs := [],
                 exitRegistered := false } ∧
        p.startTime < now + killDur + 2000) ∧
    (st.active id = none →
        (restartHandler st id now killDur).signalsSent = [] ∧
        (restartHandler st id now killDur).delaysMs = [] ∧
        ∀ c, st.servers id = some c →
          (restartHandler st id now killDur).result = RestartResult.success st.nextPid) := by
  constructor
  · intro p c hp hc hle
    refine ⟨?_, ?_, ?_, by omega⟩ <;>
      simp [restartHandler, hp, hc, mapSet]
  · intro hn
    refine ⟨?_, ?_, ?_⟩
    · rcases h : st.servers id with _ | c <;> simp [restartHandler, hn, h]
    · rcases h : st.servers id with _ | c <;> simp [restartHandler, hn, h]
    · intro c hc
      simp [restartHandler, hn, hc]

/-- Witness for restart_sequence: restarting the running instance "a"
of stOneRunning at time 200 with kill latency 5 sends SIGTERM to pid 7,
waits 2000 ms, and registers a new process started at 2205, strictly
after procAlpha's start time 100. -/
theorem restart_sequence_witness :
    (restartHandler stOneRunning "a" 200 5).signalsSent = [7] ∧
    (restartHandler stOneRunning "a" 200 5).delaysMs = [2000] ∧
    (restartHandler stOneRunning "a" 200 5).state.active "a" =
      some { pid := 3, startTime := 2205, logs := [], exitRegistered := false } ∧
    procAlpha.startTime < 2205 :=
  (restart_sequence stOneRunning "a" 200 5).1 procAlpha cfgAlpha
    (by decide) (by decide) (by decide)

/-- Claim C6: a successful restart of the configured instance "a"
(which performs the Start half of Restart by spawning and registering a
new process) leaves the persisted lastStarted unchanged and performs no
saveConfig, whereas a successful direct start of the same instance sets
lastStarted to the current time and performs exactly one save. -/
theorem restart_skips_persistence :
    (restartHandler stOneConfigured "a" 100 5).result = RestartResult.success 3 ∧
    (restartHandler stOneConfigured "a" 100 5).state.servers "a" = some cfgAlpha ∧
    (restartHandler stOneConfigured "a" 100 5).state.savedCount = 0 ∧
    (startHandler stOneConfigured "a" 100).2.servers "a" =
      some { name := "alpha", lastStarted := some 100 } ∧
    (startHandler stOneConfigured "a" 100).2.savedCount = 1 := by
  refine ⟨by decide, by decide, by decide, by decide, by decide⟩

/-- Claim C7: joining the console of a running instance replays a final
segment of the log buffer — at most 50 records, exactly 50 when at
least 50 are buffered — in original order, followed by exactly one
synthetic live-status system message; joining a non-running instance
yields only the one offline-status system message. -/
theorem join_server_replay (p : ServerProcess) :
    (∃ pre suffix, p.logs = pre ++ suffix ∧ suffix.length ≤ 50 ∧
        (50 ≤ p.logs.length → suffix.length = 50) ∧
        joinServer (some p) =
          suffix.map (fun l => SocketMsg.log l.data l.time)
            ++ [SocketMsg.system liveMsg]) ∧
    joinServer none = [SocketMsg.system offlineMsg] := by
  refine ⟨⟨p.logs.take (p.logs.length - 50), p.logs.drop (p.logs.length - 50),
          (p.logs.take_append_drop (p.logs.length - 50)).symm, ?_, ?_, rfl⟩, rfl⟩
  · rw [List.length_drop]; omega
  · intro h; rw [List.length_drop]; omega

/-- Witness for join_server_replay at a process with three buffered
records and at a non-running instance. -/
theorem join_server_replay_witness :
    (∃ pre suffix, procLogs3.logs = pre ++ suffix ∧ suffix.length ≤ 50 ∧
        (50 ≤ procLogs3.logs.length → suffix.length = 50) ∧
        joinServer (some procLogs3) =
          suffix.map (fun l => SocketMsg.log l.data l.time)
            ++ [SocketMsg.system liveMsg]) ∧
    joinServer none = [SocketMsg.system offlineMsg] :=
  join_server_replay procLogs3

/-- Claim C8: getRequiredJavaVersion returns the value of the longest
key of JAVA_VERSION_MAP that starts the version string — when any
matches — and 17 when none does; in particular 21 for versions starting
with 1.21 or 1.20.5, 17 for 1.20.4/1.20/1.19/1.18/1.17, 11 for
1.16/1.15/1.14/1.13, 8 for 1.12, and 17 for an unmatched version. -/
theorem java_version_longest (v : List Char) :
    (∀ e, firstMatch JAVA_VERSION_MAP v = some e →
        getRequiredJavaVersion v = e.2 ∧ e ∈ JAVA_VERSION_MAP ∧ e.1 <+: v ∧
        ∀ f ∈ JAVA_VERSION_MAP, f.1 <+: v → f.1.length ≤ e.1.length) ∧
    (firstMatch JAVA_VERSION_MAP v = none →
        (∀ f ∈ JAVA_VERSION_MAP, ¬ f.1 <+: v) ∧ getRequiredJavaVersion v = 17) ∧
    getRequiredJavaVersion "1.21.3".toList = 21 ∧
    getRequiredJavaVersion "1.20.5".toList = 21 ∧
    getRequiredJavaVersion "1.20.4".toList = 17 ∧
    getRequiredJavaVersion "1.20.1".toList = 17 ∧
    getRequiredJavaVersion "1.19.2".toList = 17 ∧
    getRequiredJavaVersion "1.18".toList = 17 ∧
    getRequiredJavaVersion "1.17.1".toList = 17 ∧
    getRequiredJavaVersion "1.16.5".toList = 11 ∧
    getRequiredJavaVersion "1.15.2".toList = 11 ∧
    getRequiredJavaVersion "1.14".toList = 11 ∧
    getRequiredJavaVersion "1.13.2".toList = 11 ∧
    getRequiredJavaVersion "1.12.2".toList = 8 ∧
    getRequiredJavaVersion "1.8.9".toList = 17 := by
  have h := firstMatch_longest JAVA_VERSION_MAP v (by unfold TableOrderOk; decide)
  refine ⟨?_, ?_, by decide, by decide, by decide, by decide, by decide, by decide,
          by decide, by decide, by decide, by decide, by decide, by decide, by decide⟩
  · intro e he
    obtain ⟨hmem, hpre, hmax⟩ := h.1 e he
    exact ⟨by simp [getRequiredJavaVersion, he], hmem, hpre, hmax⟩
  · intro hn
    exact ⟨h.2 hn, by simp [getRequiredJavaVersion, hn]⟩

/-- Witness for java_version_longest: version "1.20.53" first-matches
the entry with key "1.20.5", so the required Java version is 21. -/
theorem java_version_longest_witness :
    getRequiredJavaVersion "1.20.53".toList = 21 :=
  ((java_version_longest "1.20.53".toList).1 ("1.20.5".toList, 21) (by decide)).1

/-- Claim C9: with no node key configured — absent or empty — the auth
middleware admits every request whatever its headers; with a nonempty
key configured, a request passes exactly when it carries the matching
Bearer authorization or x-api-key header, and is otherwise answered 401
Unauthorized. -/
theorem auth_spec :
    (∀ ah ak, authMiddleware none ah ak = AuthDecision.next) ∧
    (∀ ah ak, authMiddleware (some "") ah ak = AuthDecision.next) ∧
    (∀ k ah ak, k ≠ "" →
        (authMiddleware (some k) ah ak = AuthDecision.next ↔
          (ah = some ("Bearer " ++ k) ∨ ak = some k))) ∧
    (∀ k ah ak, k ≠ "" → ¬(ah = some ("Bearer " ++ k) ∨ ak = some k) →
        authMiddleware (some k) ah ak = AuthDecision.unauthorized) := by
  refine ⟨fun ah ak => rfl, fun ah ak => rfl, ?_, ?_⟩
  · intro k ah ak hk
    show (if k = "" then AuthDecision.next
          else if ah = some ("Bearer " ++ k) ∨ ak = some k then AuthDecision.next
          else AuthDecision.unauthorized) = AuthDecision.next ↔ _
    rw [if_neg hk]
    by_cases h : ah = some ("Bearer " ++ k) ∨ ak = some k
    · rw [if_pos h]; simpa using h
    · rw [if_neg h]; simpa using h
  · intro k ah ak hk h
    show (if k = "" then AuthDecision.next
          else if ah = some ("Bearer " ++ k) ∨ ak = some k then AuthDecision.next
          else AuthDecision.unauthorized) = AuthDecision.unauthorized
    rw [if_neg hk, if_neg h]

/-- Witness for auth_spec: with key "secret" configured, a request with
a wrong Bearer token and no x-api-key is answered Unauthorized. -/
theorem auth_spec_witness :
    authMiddleware (some "secret") (some "Bearer wrong") none
      = AuthDecision.unauthorized :=
  auth_spec.2.2.2 "secret" (some "Bearer wrong") none (by decide) (by decide)

/-- Claim C10: the files/write handler joins the request path onto the
instance directory with no containment check: for the instance
directory /root/servers/minecraft/abc and the request path
../../../../etc/passwd it writes /etc/passwd, which is not under the
instance directory, while the files/delete handler rejects the very
same path with Access denied. -/
theorem write_escapes_delete_denies :
    writeHandler (some ["root", "servers", "minecraft", "abc"])
        ["..", "..", "..", "..", "etc", "passwd"]
      = WriteResult.wrote ["etc", "passwd"] ∧
    ¬ ["root", "servers", "minecraft", "abc"] <+: ["etc", "passwd"] ∧
    deleteHandler (some ["root", "servers", "minecraft", "abc"])
        ["..", "..", "..", "..", "etc", "passwd"]
      = DeleteResult.accessDenied := by
  decide

end Daemon
